import Mathlib

/-!
# Verification of bitwarden_rs authentication and emergency-access jobs

Shallow embedding of the JWT handling and request-guard code in
`src/auth.rs`, the security-stamp endpoint in `src/api/core/accounts.rs`,
the emergency-access model in `src/db/models/emergency_access.rs`, and the
scheduler jobs in `src/jobs.rs`.

Machine integers (`i32`, `i64` timestamps) are modelled as `Int`; chrono
`NaiveDateTime` values are modelled as seconds since the epoch, with
`Duration::days d` equal to `d * 86400` seconds.
-/

/-- Chrono `Duration::days d`, in seconds. -/
def chronoDays (d : Int) : Int := d * 86400

/-! ## JWT issuers and validation (`src/auth.rs` lines 15-76) -/

/-- The five token purposes that `src/auth.rs` defines issuer strings for. -/
inductive JwtPurpose where
  | login
  | invite
  | delete
  | verifyemail
  | admin
deriving DecidableEq, Repr

/-- The per-purpose part of the issuer string: the static initialisers
`JWT_LOGIN_ISSUER .. JWT_ADMIN_ISSUER` each format the configured domain
origin followed by a bar and the purpose word. -/
def issuerTag : JwtPurpose → String
  | .login => "|login"
  | .invite => "|invite"
  | .delete => "|delete"
  | .verifyemail => "|verifyemail"
  | .admin => "|admin"

/-- Issuer string for a purpose: the origin with the purpose tag appended,
as in `format!("{}|login", CONFIG.domain_origin())`. -/
def jwtIssuer (origin : String) (p : JwtPurpose) : String :=
  origin ++ issuerTag p

/-- The registered-claim view that JWT validation inspects: every claims
struct in `src/auth.rs` (`LoginJWTClaims`, `InviteJWTClaims`,
`DeleteJWTClaims`, `VerifyEmailJWTClaims`, `AdminJWTClaims`) carries
`nbf`, `exp`, `iss` and `sub`. -/
structure StdClaims where
  nbf : Int
  exp : Int
  iss : String
  sub : String
deriving DecidableEq, Repr

/-- A token as presented to the verifier: the decoded claims together with
whether its RS256 signature verifies against the server public key. -/
structure SignedToken (α : Type) where
  sigValid : Bool
  claims : α
deriving DecidableEq, Repr

/-- Modelled from the spec: `jsonwebtoken::decode` (external crate), as
configured by `decode_jwt` in `src/auth.rs` lines 40-56 — signature check,
`validate_exp` and `validate_nbf` with a 30-second leeway, and the `iss`
claim required to equal the expected issuer string exactly. -/
def decode_jwt {α : Type} (getIss : α → String) (getNbf getExp : α → Int)
    (now : Int) (t : SignedToken α) (issuer : String) : Except String α :=
  if t.sigValid = false then .error "InvalidSignature"
  else if getExp t.claims < now - 30 then .error "ExpiredSignature"
  else if getNbf t.claims > now + 30 then .error "ImmatureSignature"
  else if getIss t.claims ≠ issuer then .error "InvalidIssuer"
  else .ok t.claims

/-- The purpose-indexed decode entry points `decode_login`, `decode_invite`,
`decode_delete`, `decode_verify_email`, `decode_admin`
(`src/auth.rs` lines 58-76), viewed through the registered claims. -/
def decode_for (p : JwtPurpose) (origin : String) (now : Int)
    (t : SignedToken StdClaims) : Except String StdClaims :=
  decode_jwt StdClaims.iss StdClaims.nbf StdClaims.exp now t (jwtIssuer origin p)

/-! ## Login claims and role checks (`src/auth.rs` lines 78-143) -/

/-- The full login-token claims struct `LoginJWTClaims`. -/
structure LoginJWTClaims where
  nbf : Int
  exp : Int
  iss : String
  sub : String
  premium : Bool
  name : String
  email : String
  email_verified : Bool
  orgowner : List String
  orgadmin : List String
  orguser : List String
  orgmanager : List String
  sstamp : String
  device : String
  scope : List String
  amr : List String
deriving DecidableEq, Repr

/-- Membership check `LoginJWTClaims::is_organization_owner`. -/
def is_organization_owner (c : LoginJWTClaims) (org_uuid : String) : Bool :=
  if c.orgowner.contains org_uuid then true
  else false

/-- Membership check `LoginJWTClaims::is_organization_admin`: the admin list,
falling back to the owner check. -/
def is_organization_admin (c : LoginJWTClaims) (org_uuid : String) : Bool :=
  if c.orgadmin.contains org_uuid then true
  else is_organization_owner c org_uuid

/-- Membership check `LoginJWTClaims::is_organization_manager`. -/
def is_organization_manager (c : LoginJWTClaims) (org_uuid : String) : Bool :=
  if c.orgmanager.contains org_uuid then true
  else is_organization_admin c org_uuid

/-- Membership check `LoginJWTClaims::is_organization_user`. -/
def is_organization_user (c : LoginJWTClaims) (org_uuid : String) : Bool :=
  if c.orguser.contains org_uuid then true
  else is_organization_manager c org_uuid

/-! ## Bearer token extraction (`src/auth.rs` lines 298-305)

The access token is `a.rsplit("Bearer ").next()` on the Authorization
header value `a`: the segment of `a` after the last occurrence of the
pattern, or all of `a` when the pattern does not occur.  Rust's
`rsplit` iterator always yields at least one segment, so `next()` is
always `Some`; the model keeps the `Option` so the dead arm of the
`match` in the source stays visible. -/

/-- The literal split pattern of the source. -/
def bearerPat : List Char := "Bearer ".data

/-- Suffix of `s` after the last occurrence of `bearerPat`, or `none` when
the pattern does not occur: the scan prefers a match further right. -/
def lastBearerTail (s : List Char) : Option (List Char) :=
  match s with
  | [] => none
  | c :: rest =>
      match lastBearerTail rest with
      | some t => some t
      | none =>
          if bearerPat.isPrefixOf (c :: rest) then
            some ((c :: rest).drop bearerPat.length)
          else none

/-- Whether `bearerPat` occurs anywhere in `s`. -/
def containsBearer (s : List Char) : Bool :=
  match s with
  | [] => false
  | c :: rest => bearerPat.isPrefixOf (c :: rest) || containsBearer rest

/-- Modelled from the spec: Rust `str::rsplit("Bearer ").next()` (standard
library) — the text after the last pattern occurrence, or the whole string
when there is none; never `None`. -/
def rsplitBearerNext (a : String) : Option String :=
  match lastBearerTail a.data with
  | some t => some (String.mk t)
  | none => some a

/-- The access-token extraction of `Headers::from_request`
(`src/auth.rs` lines 298-305). -/
def getAccessToken (auth : Option String) : Except String String :=
  match auth with
  | some a =>
      match rsplitBearerNext a with
      | some t => .ok t
      | none => .error "No access token provided"
  | none => .error "No access token provided"

/-! ## Rocket outcome model and database -/

/-- HTTP statuses a guard can attach to a failure.  The `err_handler!`
macro (in `src/error.rs`, outside the files at hand; modelled from the
spec) always uses `Status::Unauthorized`. -/
inductive HttpStatus where
  | unauthorized
  | badRequest
  | notFound
deriving DecidableEq, Repr

/-- Rocket's request-guard outcome. -/
inductive Outcome (α : Type) where
  | success : α → Outcome α
  | failure : HttpStatus × String → Outcome α
  | forward : Outcome α
deriving DecidableEq, Repr

deriving instance DecidableEq for Except

/-- Modelled from the spec: the HTTP layer exposes only the status of a
failed guard to the caller; the message is logged server-side. -/
def callerFacing (e : HttpStatus × String) : HttpStatus := e.1

/-- Modelled from the spec: the device row referenced by a login token
(`src/db/models/device.rs` is not among the files at hand). -/
structure Device where
  uuid : String
  user_uuid : String
  name : String
deriving DecidableEq, Repr

/-- Modelled from the spec: the user row; only the fields the guards and
jobs read (`src/db/models/user.rs` is not among the files at hand). -/
structure User where
  uuid : String
  security_stamp : String
  email : String
  name : String
deriving DecidableEq, Repr

/-- Modelled from the spec: a membership row with its `UserOrgStatus`
encoding, `Invited = 0`, `Accepted = 1`, `Confirmed = 2`
(`src/db/models/organization.rs` is not among the files at hand). -/
structure UserOrganization where
  user_uuid : String
  org_uuid : String
  status : Int
  atype : Int
deriving DecidableEq, Repr

/-- The `UserOrgStatus::Confirmed as i32` constant. -/
def userOrgStatusConfirmed : Int := 2

/-- The database visible to the guards, plus whether the `DbConn` guard
succeeds. -/
structure Db where
  connOk : Bool
  devices : List Device
  users : List User
  memberships : List UserOrganization
deriving DecidableEq, Repr

/-- Lookup `Device::find_by_uuid`. -/
def Device.find_by_uuid (uuid : String) (db : Db) : Option Device :=
  db.devices.find? (fun d => d.uuid == uuid)

/-- Lookup `User::find_by_uuid`. -/
def User.find_by_uuid (uuid : String) (db : Db) : Option User :=
  db.users.find? (fun u => u.uuid == uuid)

/-- Lookup `UserOrganization::find_by_user_and_org`. -/
def UserOrganization.find_by_user_and_org (user_uuid org_uuid : String) (db : Db) :
    Option UserOrganization :=
  db.memberships.find? (fun m => m.user_uuid == user_uuid && m.org_uuid == org_uuid)

/-! ## Request and host resolution (`src/auth.rs` lines 264-337) -/

/-- Server configuration fields the guards read. -/
structure Config where
  domain_set : Bool
  domain : String
  rocketTlsEnvSet : Bool
deriving DecidableEq, Repr

/-- The request headers and parameters the guards read. -/
structure Request where
  authorization : Option String
  referer : Option String
  xForwardedProto : Option String
  xForwardedHost : Option String
  hostHeader : Option String
  pathSegment1 : Option String
  organizationIdQuery : Option String
deriving DecidableEq, Repr

/-- Host resolution in `Headers::from_request` (`src/auth.rs` lines 270-296). -/
def resolveHost (cfg : Config) (req : Request) : String :=
  if cfg.domain_set then cfg.domain
  else
    match req.referer with
    | some r => r
    | none =>
        let protocol :=
          match req.xForwardedProto with
          | some p => p
          | none => if cfg.rocketTlsEnvSet then "https" else "http"
        let host :=
          match req.xForwardedHost with
          | some h => h
          | none =>
              match req.hostHeader with
              | some h => h
              | none => ""
        protocol ++ "://" ++ host

/-- The whitespace removal `token.replace(char::is_whitespace, "")` in
`decode_jwt` (`src/auth.rs` line 51). -/
def stripWhitespace (s : String) : String :=
  String.mk (s.data.filter (fun c => !c.isWhitespace))

/-- The `decode_login` entry point on a raw token string: parsing and
signature verification of the compact JWT (external crate) are abstracted
into the `parse` argument, then the claims are validated as in
`decode_jwt` against the login issuer. -/
def decode_login (parse : String → Option (SignedToken LoginJWTClaims))
    (origin : String) (now : Int) (token : String) : Except String LoginJWTClaims :=
  match parse (stripWhitespace token) with
  | none => .error "InvalidToken"
  | some t =>
      decode_jwt LoginJWTClaims.iss LoginJWTClaims.nbf LoginJWTClaims.exp
        now t (jwtIssuer origin .login)

/-- The authenticated-request data produced by the base guard. -/
structure Headers where
  host : String
  device : Device
  user : User
  claims : LoginJWTClaims
deriving DecidableEq, Repr

/-- Base identity resolution `Headers::from_request`
(`src/auth.rs` lines 267-337): host, bearer token, login-token validation,
device and user lookup, and the security-stamp comparison.  Each
`err_handler!` site becomes a failure with `Status::Unauthorized` and the
site's message. -/
def Headers.from_request (cfg : Config)
    (parse : String → Option (SignedToken LoginJWTClaims)) (origin : String)
    (now : Int) (db : Db) (req : Request) : Outcome Headers :=
  let host := resolveHost cfg req
  match getAccessToken req.authorization with
  | .error m => .failure (HttpStatus.unauthorized, m)
  | .ok access_token =>
      match decode_login parse origin now access_token with
      | .error _ => .failure (HttpStatus.unauthorized, "Invalid claim")
      | .ok claims =>
          if db.connOk = false then .failure (HttpStatus.unauthorized, "Error getting DB")
          else
            match Device.find_by_uuid claims.device db with
            | none => .failure (HttpStatus.unauthorized, "Invalid device id")
            | some device =>
                match User.find_by_uuid claims.sub db with
                | none => .failure (HttpStatus.unauthorized, "Device has no user associated")
                | some user =>
                    if user.security_stamp ≠ claims.sstamp then
                      .failure (HttpStatus.unauthorized, "Invalid security stamp")
                    else .success { host := host, device := device, user := user, claims := claims }

/-! ## Organization guards (`src/auth.rs` lines 340-488) -/

/-- Organization-id resolution `get_org_id` (`src/auth.rs` lines 351-365):
the second path segment when it parses as a UUID, else the
`organizationId` query value when it parses as a UUID, else none.  The
UUID syntax check (`uuid::Uuid::parse_str`, external crate) is the
`uuidOk` argument. -/
def get_org_id (uuidOk : String → Bool) (pathSegment1 orgQuery : Option String) :
    Option String :=
  match pathSegment1 with
  | some org_id =>
      if uuidOk org_id then some org_id
      else
        match orgQuery with
        | some org_id2 => if uuidOk org_id2 then some org_id2 else none
        | none => none
  | none =>
      match orgQuery with
      | some org_id2 => if uuidOk org_id2 then some org_id2 else none
      | none => none

/-- The guard data for organization-scoped endpoints. -/
structure OrgHeaders where
  host : String
  device : Device
  user : User
  claims : LoginJWTClaims
  context_org_uuid : String
deriving DecidableEq, Repr

/-- Membership guard `OrgHeaders::from_request` (`src/auth.rs` lines
367-413): the base guard, then organization-id resolution, then a
confirmed-membership check against the database; the membership row itself
is discarded and the base guard's user is kept, as in the source. -/
def OrgHeaders.from_request (cfg : Config) (uuidOk : String → Bool)
    (parse : String → Option (SignedToken LoginJWTClaims)) (origin : String)
    (now : Int) (db : Db) (req : Request) : Outcome OrgHeaders :=
  match Headers.from_request cfg parse origin now db req with
  | .forward => .forward
  | .failure f => .failure f
  | .success headers =>
      match get_org_id uuidOk req.pathSegment1 req.organizationIdQuery with
      | some org_id =>
          if db.connOk = false then .failure (HttpStatus.unauthorized, "Error getting DB")
          else
            match UserOrganization.find_by_user_and_org headers.user.uuid org_id db with
            | some m =>
                if m.status = userOrgStatusConfirmed then
                  .success { host := headers.host, device := headers.device,
                             user := headers.user, claims := headers.claims,
                             context_org_uuid := org_id }
                else
                  .failure (HttpStatus.unauthorized,
                    "The current user isn't confirmed member of the organization")
            | none =>
                .failure (HttpStatus.unauthorized,
                  "The current user isn't member of the organization")
      | none => .failure (HttpStatus.unauthorized, "Error getting the organization id")

/-- The guard data for admin-tier endpoints. -/
structure AdminHeaders where
  host : String
  device : Device
  user : User
  claims : LoginJWTClaims
  context_org_uuid : String
deriving DecidableEq, Repr

/-- Admin-tier guard `AdminHeaders::from_request`
(`src/auth.rs` lines 423-445). -/
def AdminHeaders.from_request (cfg : Config) (uuidOk : String → Bool)
    (parse : String → Option (SignedToken LoginJWTClaims)) (origin : String)
    (now : Int) (db : Db) (req : Request) : Outcome AdminHeaders :=
  match OrgHeaders.from_request cfg uuidOk parse origin now db req with
  | .forward => .forward
  | .failure f => .failure f
  | .success headers =>
      if is_organization_admin headers.claims headers.context_org_uuid then
        .success { host := headers.host, device := headers.device,
                   user := headers.user, claims := headers.claims,
                   context_org_uuid := headers.context_org_uuid }
      else
        .failure (HttpStatus.unauthorized,
          "You need to be Admin or Owner to call this endpoint")

/-- The guard data for owner-tier endpoints. -/
structure OwnerHeaders where
  host : String
  device : Device
  user : User
  claims : LoginJWTClaims
  context_org_uuid : String
deriving DecidableEq, Repr

/-- Owner-tier guard `OwnerHeaders::from_request`
(`src/auth.rs` lines 466-488). -/
def OwnerHeaders.from_request (cfg : Config) (uuidOk : String → Bool)
    (parse : String → Option (SignedToken LoginJWTClaims)) (origin : String)
    (now : Int) (db : Db) (req : Request) : Outcome OwnerHeaders :=
  match OrgHeaders.from_request cfg uuidOk parse origin now db req with
  | .forward => .forward
  | .failure f => .failure f
  | .success headers =>
      if is_organization_owner headers.claims headers.context_org_uuid then
        .success { host := headers.host, device := headers.device,
                   user := headers.user, claims := headers.claims,
                   context_org_uuid := headers.context_org_uuid }
      else
        .failure (HttpStatus.unauthorized, "You need to be Owner to call this endpoint")

/-- A concrete UUID syntax check usable as `uuidOk`: the canonical
hyphenated form 8-4-4-4-12 of hex digits. -/
def uuidHyphenated (s : String) : Bool :=
  let groups := s.data.splitOn '-'
  groups.length == 5 &&
  (groups.map List.length) == [8, 4, 4, 4, 12] &&
  groups.all (fun g => g.all (fun c =>
    c.isDigit || ('a' ≤ c && c ≤ 'f') || ('A' ≤ c && c ≤ 'F')))

/-! ## Security-stamp endpoint (`src/api/core/accounts.rs` lines 141-154) -/

/-- The `post_sstamp` handler: after the base guard, verify the submitted
master-password hash and reset the user's security stamp.  Modelled from
the spec: `User::check_valid_password` is abstracted into the boolean
`passwordOk`, and `User::reset_security_stamp` (in `src/db/models/user.rs`,
not among the files at hand) replaces `security_stamp` with a freshly
generated uuid, passed here as `freshStamp`. -/
def post_sstamp (passwordOk : Bool) (freshStamp : String) (user : User) :
    Except String User :=
  if passwordOk = false then .error "Invalid password"
  else .ok { user with security_stamp := freshStamp }

/-! ## Emergency access (`src/db/models/emergency_access.rs`) -/

/-- The status enum `EmergencyAccessStatus`. -/
inductive EmergencyAccessStatus where
  | Invited
  | Accepted
  | Confirmed
  | RecoveryInitiated
  | RecoveryApproved
deriving DecidableEq, Repr

/-- The discriminant values of `EmergencyAccessStatus` as stored in the
`status: i32` column. -/
def statusCode : EmergencyAccessStatus → Int
  | .Invited => 0
  | .Accepted => 1
  | .Confirmed => 2
  | .RecoveryInitiated => 3
  | .RecoveryApproved => 4

/-- The `EmergencyAccess` row. -/
structure EmergencyAccess where
  uuid : String
  grantor_uuid : String
  grantee_uuid : Option String
  email : Option String
  key_encrypted : Option String
  atype : Int
  status : Int
  wait_time_days : Int
  recovery_initiated_at : Option Int
  last_notification_at : Option Int
  updated_at : Int
  created_at : Int
deriving DecidableEq, Repr

/-- Constructor `EmergencyAccess::new` (`src/db/models/emergency_access.rs`
lines 29-44).  The generated row uuid and the current time are effects of
the constructor and are passed as the trailing arguments. -/
def EmergencyAccess.new (grantor_uuid : String) (email : Option String)
    (status : Int) (atype : Int) (wait_time_days : Int)
    (freshUuid : String) (now : Int) : EmergencyAccess :=
  { uuid := freshUuid
    grantor_uuid := grantor_uuid
    grantee_uuid := none
    email := email
    status := status
    atype := atype
    wait_time_days := wait_time_days
    recovery_initiated_at := none
    created_at := now
    updated_at := now
    key_encrypted := none
    last_notification_at := none }

/-- Query `EmergencyAccess::find_all_recoveries`
(`src/db/models/emergency_access.rs` lines 231-238): all rows whose status
is `RecoveryInitiated`. -/
def find_all_recoveries (rows : List EmergencyAccess) : List EmergencyAccess :=
  rows.filter (fun e => e.status == statusCode .RecoveryInitiated)

/-! ## Scheduler jobs (`src/jobs.rs`) -/

/-- Eligibility test of `emergency_request_timed_out_job`
(`src/jobs.rs` lines 49-52): the recovery-initiation time is set and the
wait window has elapsed. -/
def timedOutEligible (now : Int) (e : EmergencyAccess) : Bool :=
  match e.recovery_initiated_at with
  | some t => decide (now ≥ t + chronoDays e.wait_time_days)
  | none => false

/-- The per-record status mutation of the timeout job
(`src/jobs.rs` lines 48-55): eligible records move to `RecoveryApproved`,
others are untouched. -/
def timed_out_step (now : Int) (e : EmergencyAccess) : EmergencyAccess :=
  if timedOutEligible now e then { e with status := statusCode .RecoveryApproved }
  else e

/-- Eligibility test of `emergency_notification_reminder_job`
(`src/jobs.rs` lines 98-104): one day before the wait window ends, and no
notification within the last day. -/
def reminderEligible (now : Int) (e : EmergencyAccess) : Bool :=
  (match e.recovery_initiated_at with
   | some t => decide (now ≥ t + chronoDays (e.wait_time_days - 1))
   | none => false) &&
  (match e.last_notification_at with
   | none => true
   | some tn => decide (now ≥ tn + chronoDays 1))

/-- The environment of a scheduler run: configuration flags, the user
table, and the outcomes of the external mail sends. -/
structure JobEnv where
  mail_enabled : Bool
  users : List User
  emailDomainAllowed : String → Bool
  sendTimedOutOk : Bool
  sendApprovedOk : Bool
  sendReminderOk : Bool
  saveOk : Bool

/-- Lookup in the job environment's user table. -/
def JobEnv.findUser (env : JobEnv) (uuid : String) : Option User :=
  env.users.find? (fun u => u.uuid == uuid)

/-- What a run has persisted and sent so far. -/
structure RunState where
  saved : List EmergencyAccess
  mailsSent : List String
deriving Repr

/-- Outcome of a scheduler run: either the loop over the fetched records
completes, or an `expect`/`panic` unwinds the job thread mid-run, leaving
the remaining records unprocessed.  Both carry the effects performed up to
that point. -/
inductive RunResult where
  | completed : RunState → RunResult
  | panicked : String → RunState → RunResult

/-- Body of the timeout job's loop (`src/jobs.rs` lines 48-84) for one
record: on eligibility, save the `RecoveryApproved` transition, then (when
mail is enabled) look up grantor and grantee and send both mails; every
`expect` in the source is a panic that aborts the run. -/
def timedOutProcessOne (env : JobEnv) (now : Int) (st : RunState)
    (emer : EmergencyAccess) : Except (String × RunState) RunState :=
  if timedOutEligible now emer then
    let emer2 := { emer with status := statusCode .RecoveryApproved }
    if env.saveOk = false then
      .error ("Cannot save emergency access on job", st)
    else
      let st2 : RunState := { st with saved := st.saved ++ [emer2] }
      if env.mail_enabled then
        match env.findUser emer2.grantor_uuid with
        | none => .error ("Grantor user not found.", st2)
        | some grantor_user =>
            match emer2.grantee_uuid with
            | none => .error ("Grantee user invalid.", st2)
            | some gid =>
                match env.findUser gid with
                | none => .error ("Grantee user not found.", st2)
                | some grantee_user =>
                    if env.sendTimedOutOk = false then
                      .error ("Error on sending email", st2)
                    else
                      let st3 : RunState := { st2 with
                        mailsSent := st2.mailsSent ++
                          ["recovery_timed_out:" ++ grantor_user.email] }
                      if env.sendApprovedOk = false then
                        .error ("Error on sending email", st3)
                      else
                        .ok { st3 with
                          mailsSent := st3.mailsSent ++
                            ["recovery_approved:" ++ grantee_user.email] }
      else .ok st2
  else .ok st

/-- The loop of `emergency_request_timed_out_job` over the fetched
records: a panic aborts the remaining iterations. -/
def timed_out_run (env : JobEnv) (now : Int) (records : List EmergencyAccess)
    (st : RunState) : RunResult :=
  match records with
  | [] => .completed st
  | emer :: rest =>
      match timedOutProcessOne env now st emer with
      | .ok st2 => timed_out_run env now rest st2
      | .error (msg, st2) => .panicked msg st2

/-- Body of the reminder job's loop (`src/jobs.rs` lines 97-127) for one
record: on eligibility the record is saved as-is — the source never
assigns `last_notification_at` before calling `save` — then the reminder
mail is sent; every `expect` is a panic that aborts the run. -/
def reminderProcessOne (env : JobEnv) (now : Int) (st : RunState)
    (emer : EmergencyAccess) : Except (String × RunState) RunState :=
  if reminderEligible now emer then
    if env.saveOk = false then
      .error ("Cannot save emergency access on job", st)
    else
      let st2 : RunState := { st with saved := st.saved ++ [emer] }
      if env.mail_enabled then
        match env.findUser emer.grantor_uuid with
        | none => .error ("Grantor user not found.", st2)
        | some grantor_user =>
            match emer.grantee_uuid with
            | none => .error ("Grantee user invalid.", st2)
            | some gid =>
                match env.findUser gid with
                | none => .error ("Grantee user not found.", st2)
                | some _grantee_user =>
                    if env.sendReminderOk = false then
                      .error ("Error on sending email", st2)
                    else
                      .ok { st2 with
                        mailsSent := st2.mailsSent ++
                          ["recovery_reminder:" ++ grantor_user.email] }
      else .ok st2
  else .ok st

/-- The loop of `emergency_notification_reminder_job` over the fetched
records: a panic aborts the remaining iterations. -/
def reminder_run (env : JobEnv) (now : Int) (records : List EmergencyAccess)
    (st : RunState) : RunResult :=
  match records with
  | [] => .completed st
  | emer :: rest =>
      match reminderProcessOne env now st emer with
      | .ok st2 => reminder_run env now rest st2
      | .error (msg, st2) => .panicked msg st2

/-- The invariant as the spec words it, as a predicate on a single row
(for refinement comparison): `recovery_initiated_at` is set if and only if
the status is `RecoveryInitiated` or the later `RecoveryApproved` reached
from it. -/
def specRecoveryTimestampInv (e : EmergencyAccess) : Prop :=
  e.recovery_initiated_at ≠ none ↔
    (e.status = statusCode .RecoveryInitiated ∨ e.status = statusCode .RecoveryApproved)

instance (e : EmergencyAccess) : Decidable (specRecoveryTimestampInv e) := by
  unfold specRecoveryTimestampInv
  infer_instance

/-! ## Concrete fixtures used to evaluate the definitions -/

/-- A login-token claims value for a sample user and device. -/
def sampleClaims : LoginJWTClaims :=
  { nbf := 0, exp := 1000, iss := "o|login", sub := "u1", premium := false,
    name := "Alice", email := "alice@mail.test", email_verified := true,
    orgowner := [], orgadmin := [], orguser := [], orgmanager := [],
    sstamp := "s1", device := "d1", scope := ["api"], amr := ["Application"] }

/-- A parser that accepts any token string as the sample signed token. -/
def sampleParse : String → Option (SignedToken LoginJWTClaims) :=
  fun _ => some { sigValid := true, claims := sampleClaims }

/-- A database holding the sample device and user. -/
def sampleDb : Db :=
  { connOk := true,
    devices := [{ uuid := "d1", user_uuid := "u1", name := "dev" }],
    users := [{ uuid := "u1", security_stamp := "s1", email := "alice@mail.test",
                name := "Alice" }],
    memberships := [] }

/-- The sample database after the user's security stamp was reset. -/
def sampleDbStale : Db :=
  { sampleDb with
    users := [{ uuid := "u1", security_stamp := "s2", email := "alice@mail.test",
                name := "Alice" }] }

/-- A request carrying the sample bearer token and a non-UUID path segment. -/
def sampleReq : Request :=
  { authorization := some "Bearer tok", referer := none, xForwardedProto := none,
    xForwardedHost := none, hostHeader := none, pathSegment1 := some "collections",
    organizationIdQuery := none }

/-- A configuration with a fixed domain. -/
def sampleCfg : Config := { domain_set := true, domain := "o", rocketTlsEnvSet := false }

/-- The guard result on the sample inputs. -/
def sampleHeaders : Headers :=
  { host := "o",
    device := { uuid := "d1", user_uuid := "u1", name := "dev" },
    user := { uuid := "u1", security_stamp := "s1", email := "alice@mail.test",
              name := "Alice" },
    claims := sampleClaims }

/-- An emergency-access row in `RecoveryInitiated` with the default wait of
seven days, recovery initiated at time 0. -/
def sampleEmer : EmergencyAccess :=
  { uuid := "e1", grantor_uuid := "g1", grantee_uuid := some "u2", email := none,
    key_encrypted := none, atype := 1, status := statusCode .RecoveryInitiated,
    wait_time_days := 7, recovery_initiated_at := some 0,
    last_notification_at := none, updated_at := 0, created_at := 0 }

/-- A second pending row, behind `sampleEmer` in the fetched list. -/
def sampleEmer2 : EmergencyAccess :=
  { sampleEmer with uuid := "e2", grantor_uuid := "g2", grantee_uuid := some "u3" }

/-- A job environment whose user table is missing the grantor of
`sampleEmer`, with mail enabled and all external sends succeeding. -/
def envMissingGrantor : JobEnv :=
  { mail_enabled := true, users := [], emailDomainAllowed := fun _ => true,
    sendTimedOutOk := true, sendApprovedOk := true, sendReminderOk := true,
    saveOk := true }

/-- The sample request with the Authorization header absent. -/
def sampleReqNoAuth : Request := { sampleReq with authorization := none }

/-- Login claims holding distinct memberships in each of the four role
lists. -/
def roleClaims : LoginJWTClaims :=
  { sampleClaims with
    orgowner := ["orgO"], orgadmin := ["orgA"],
    orgmanager := ["orgM"], orguser := ["orgU"] }

/-- A job environment holding the grantor and grantee of `sampleEmer`. -/
def envComplete : JobEnv :=
  { mail_enabled := true,
    users := [{ uuid := "g1", security_stamp := "sg", email := "grantor@mail.test",
                name := "Grantor" },
              { uuid := "u2", security_stamp := "su", email := "grantee@mail.test",
                name := "Grantee" }],
    emailDomainAllowed := fun _ => true,
    sendTimedOutOk := true, sendApprovedOk := true, sendReminderOk := true,
    saveOk := true }

/-- The complete environment with the first mail send failing. -/
def envMailFail : JobEnv := { envComplete with sendTimedOutOk := false }

/-! Helper facts about issuer strings. -/

theorem string_append_cancel_left {o a b : String} (h : o ++ a = o ++ b) : a = b := by
  have hd : (o ++ a).data = (o ++ b).data := congrArg String.data h
  rw [String.data_append, String.data_append] at hd
  exact String.ext (List.append_cancel_left hd)

theorem jwtIssuer_injective (origin : String) {p q : JwtPurpose}
    (h : jwtIssuer origin p = jwtIssuer origin q) : p = q := by
  have h2 : issuerTag p = issuerTag q := string_append_cancel_left h
  cases p <;> cases q <;> simp_all [issuerTag]

/-- C1: a token carrying purpose P's issuer is rejected when validated
against any other purpose Q, and validation for Q accepts only tokens whose
issuer equals Q's issuer string. -/
theorem c1_cross_purpose_rejection (origin : String) (p q : JwtPurpose)
    (t : SignedToken StdClaims) (now : Int)
    (hiss : t.claims.iss = jwtIssuer origin p) (hne : q ≠ p) :
    (∃ e, decode_for q origin now t = .error e) ∧
    (∀ (t' : SignedToken StdClaims) (now' : Int) (c : StdClaims),
        decode_for q origin now' t' = .ok c → t'.claims.iss = jwtIssuer origin q) := by
  constructor
  · unfold decode_for decode_jwt
    split
    · exact ⟨_, rfl⟩
    · split
      · exact ⟨_, rfl⟩
      · split
        · exact ⟨_, rfl⟩
        · split
          · exact ⟨_, rfl⟩
          · rename_i hiss'
            rw [hiss] at hiss'
            simp only [ne_eq, Decidable.not_not] at hiss'
            exact absurd (jwtIssuer_injective origin hiss') (fun hpq => hne hpq.symm)
  · intro t' now' c hok
    unfold decode_for decode_jwt at hok
    split at hok
    · exact absurd hok (by simp)
    · split at hok
      · exact absurd hok (by simp)
      · split at hok
        · exact absurd hok (by simp)
        · split at hok
          · exact absurd hok (by simp)
          · rename_i hiss'
            simpa using hiss'

/-- C1 witness: an invite-issued token rejected by login validation. -/
theorem c1_witness :
    (∃ e, decode_for JwtPurpose.login "https://vault.example.com" 50
        ⟨true, ⟨0, 100, "https://vault.example.com|invite", "u1"⟩⟩ = .error e) ∧
    (∀ (t' : SignedToken StdClaims) (now' : Int) (c : StdClaims),
        decode_for JwtPurpose.login "https://vault.example.com" now' t' = .ok c →
        t'.claims.iss = jwtIssuer "https://vault.example.com" JwtPurpose.login) :=
  c1_cross_purpose_rejection "https://vault.example.com" JwtPurpose.invite
    JwtPurpose.login ⟨true, ⟨0, 100, "https://vault.example.com|invite", "u1"⟩⟩ 50
    (by decide) (by decide)

/-- C6: the role checks respect the role ordering — owner membership
passes both tier checks, admin-only membership passes exactly the
admin-tier check, manager-or-user-only membership passes neither. -/
theorem c6_role_monotonic (c : LoginJWTClaims) (org : String) :
    (c.orgowner.contains org = true →
        is_organization_admin c org = true ∧ is_organization_owner c org = true) ∧
    (c.orgadmin.contains org = true → c.orgowner.contains org = false →
        is_organization_admin c org = true ∧ is_organization_owner c org = false) ∧
    ((c.orgmanager.contains org = true ∨ c.orguser.contains org = true) →
        c.orgadmin.contains org = false → c.orgowner.contains org = false →
        is_organization_admin c org = false ∧ is_organization_owner c org = false) := by
  refine ⟨?_, ?_, ?_⟩
  · intro h
    simp_all [is_organization_admin, is_organization_owner]
  · intro h1 h2
    simp_all [is_organization_admin, is_organization_owner]
  · intro _ h2 h3
    simp_all [is_organization_admin, is_organization_owner]

/-- C6 witness: the three cases evaluated on concrete claim lists. -/
theorem c6_witness :
    (is_organization_admin roleClaims "orgO" = true ∧
        is_organization_owner roleClaims "orgO" = true) ∧
    (is_organization_admin roleClaims "orgA" = true ∧
        is_organization_owner roleClaims "orgA" = false) ∧
    (is_organization_admin roleClaims "orgM" = false ∧
        is_organization_owner roleClaims "orgM" = false) :=
  ⟨(c6_role_monotonic roleClaims "orgO").1 (by decide),
   (c6_role_monotonic roleClaims "orgA").2.1 (by decide) (by decide),
   (c6_role_monotonic roleClaims "orgM").2.2 (Or.inl (by decide)) (by decide) (by decide)⟩

/-- C3: a record fetched by the timeout job (hence in RecoveryInitiated)
with recovery initiated at T moves to RecoveryApproved exactly when the
wait window has elapsed, and is untouched otherwise. -/
theorem c3_timeout_transition (rows : List EmergencyAccess) (now T : Int)
    (e : EmergencyAccess) (hmem : e ∈ find_all_recoveries rows)
    (hT : e.recovery_initiated_at = some T) :
    ((timed_out_step now e).status = statusCode .RecoveryApproved ↔
        now ≥ T + chronoDays e.wait_time_days) ∧
    (now < T + chronoDays e.wait_time_days → timed_out_step now e = e) := by
  have hstat : e.status = statusCode .RecoveryInitiated := by
    unfold find_all_recoveries at hmem
    have hp := List.of_mem_filter hmem
    exact beq_iff_eq.mp hp
  by_cases hel : timedOutEligible now e = true
  · have hga : now ≥ T + chronoDays e.wait_time_days := by
      unfold timedOutEligible at hel
      rw [hT] at hel
      exact of_decide_eq_true hel
    refine ⟨⟨fun _ => hga, fun _ => ?_⟩, fun hlt => absurd hga (not_le.mpr hlt)⟩
    unfold timed_out_step
    rw [if_pos hel]
  · have hel' : timedOutEligible now e = false := by simpa using hel
    have hnot : ¬ now ≥ T + chronoDays e.wait_time_days := by
      unfold timedOutEligible at hel'
      rw [hT] at hel'
      simpa using hel'
    have hid : timed_out_step now e = e := by
      unfold timed_out_step
      rw [if_neg (by simp [hel'])]
    refine ⟨⟨fun h4 => ?_, fun hge => absurd hge hnot⟩, fun _ => hid⟩
    rw [hid, hstat] at h4
    exact absurd h4 (by decide)

/-- C3 witness: the sample record approved exactly at the seven-day mark. -/
theorem c3_witness :
    ((timed_out_step 604800 sampleEmer).status = statusCode .RecoveryApproved ↔
        (604800 : Int) ≥ 0 + chronoDays sampleEmer.wait_time_days) ∧
    ((604800 : Int) < 0 + chronoDays sampleEmer.wait_time_days →
        timed_out_step 604800 sampleEmer = sampleEmer) :=
  c3_timeout_transition [sampleEmer] 604800 0 sampleEmer (by decide) (by decide)

/-- C9 counterexample: the constructor called with the RecoveryInitiated
status argument yields a record whose recovery timestamp is null while its
status is RecoveryInitiated, violating the claimed iff-invariant. -/
theorem c9_counterexample :
    ¬ specRecoveryTimestampInv
        (EmergencyAccess.new "g1" none (statusCode .RecoveryInitiated) 1 7 "e9" 0) := by
  decide

/-- C9 amended: a newly constructed record has a null recovery timestamp
for every status argument; the timeout transition preserves the recovery
timestamp and can newly reach RecoveryApproved only from a record whose
recovery timestamp is non-null. -/
theorem c9_amended_invariant (grantor : String) (email : Option String)
    (status atype wait : Int) (uuid : String) (tnew now : Int)
    (e : EmergencyAccess) :
    (EmergencyAccess.new grantor email status atype wait uuid tnew).recovery_initiated_at
        = none ∧
    (timed_out_step now e).recovery_initiated_at = e.recovery_initiated_at ∧
    ((timed_out_step now e).status = statusCode .RecoveryApproved →
        e.status ≠ statusCode .RecoveryApproved →
        e.recovery_initiated_at ≠ none) := by
  refine ⟨rfl, ?_, ?_⟩
  · unfold timed_out_step
    split <;> rfl
  · intro h4 hne
    by_cases hel : timedOutEligible now e = true
    · unfold timedOutEligible at hel
      cases hinit : e.recovery_initiated_at with
      | some t => simp
      | none => rw [hinit] at hel; simp at hel
    · unfold timed_out_step at h4
      rw [if_neg hel] at h4
      exact absurd h4 hne

/-- C9 witness: the amended statement evaluated on concrete records. -/
theorem c9_witness :
    (EmergencyAccess.new "g1" none (statusCode .Invited) 1 7 "e9" 0).recovery_initiated_at
        = none ∧
    sampleEmer.recovery_initiated_at ≠ none :=
  ⟨(c9_amended_invariant "g1" none (statusCode .Invited) 1 7 "e9" 0 604800 sampleEmer).1,
   (c9_amended_invariant "g1" none (statusCode .Invited) 1 7 "e9" 0 604800
      sampleEmer).2.2 (by decide) (by decide)⟩

/-- Helper: every failure of the base guard carries `Status::Unauthorized`. -/
theorem headers_failure_unauthorized (cfg : Config)
    (parse : String → Option (SignedToken LoginJWTClaims)) (origin : String)
    (now : Int) (db : Db) (req : Request) (e : HttpStatus × String)
    (h : Headers.from_request cfg parse origin now db req = .failure e) :
    e.1 = HttpStatus.unauthorized := by
  unfold Headers.from_request at h
  repeat' split at h
  all_goals simp_all
  all_goals (cases h; rfl)

/-- C2: the base guard accepts a login token only when the stored security
stamp equals the token's `sstamp` claim; `post_sstamp` replaces the stored
stamp with the fresh one; and whenever the stored stamp differs from a
token's `sstamp` claim the guard rejects the request, for every clock
value, hence independently of the token's expiry. -/
theorem c2_security_stamp_gate :
    (∀ cfg parse origin now db req h,
        Headers.from_request cfg parse origin now db req = .success h →
        h.user.security_stamp = h.claims.sstamp) ∧
    (∀ (pw : Bool) (fresh : String) (u u' : User),
        post_sstamp pw fresh u = .ok u' → u'.security_stamp = fresh) ∧
    (∀ cfg parse origin now db req tok claims u,
        getAccessToken req.authorization = .ok tok →
        decode_login parse origin now tok = .ok claims →
        User.find_by_uuid claims.sub db = some u →
        u.security_stamp ≠ claims.sstamp →
        ∀ h, Headers.from_request cfg parse origin now db req ≠ .success h) := by
  refine ⟨?_, ?_, ?_⟩
  · intro cfg parse origin now db req h hs
    unfold Headers.from_request at hs
    repeat' split at hs
    all_goals simp_all
    all_goals (cases hs; simp_all)
  · intro pw fresh u u' hp
    unfold post_sstamp at hp
    split at hp
    · exact absurd hp (by simp)
    · cases hp
      rfl
  · intro cfg parse origin now db req tok claims u h1 h2 h3 h4 h hs
    unfold Headers.from_request at hs
    rw [h1] at hs
    simp only [] at hs
    rw [h2] at hs
    simp only [] at hs
    split at hs
    · exact absurd hs (by simp)
    · split at hs
      · exact absurd hs (by simp)
      · rw [h3] at hs
        simp only [] at hs
        rw [if_pos h4] at hs
        exact absurd hs (by simp)

/-- C2 witness: the guard accepts the sample token against the matching
stamp and rejects it once the stored stamp has been reset. -/
theorem c2_witness :
    sampleHeaders.user.security_stamp = sampleHeaders.claims.sstamp ∧
    Headers.from_request sampleCfg sampleParse "o" 100 sampleDbStale sampleReq ≠
      .success sampleHeaders :=
  ⟨c2_security_stamp_gate.1 sampleCfg sampleParse "o" 100 sampleDb sampleReq
      sampleHeaders (by decide),
   c2_security_stamp_gate.2.2 sampleCfg sampleParse "o" 100 sampleDbStale sampleReq
      "tok" sampleClaims ⟨"u1", "s2", "alice@mail.test", "Alice"⟩
      (by decide) (by decide) (by decide) (by decide) sampleHeaders⟩

/-- C7: any two failures of the base identity guard present the same
caller-facing outcome, so the caller cannot tell which check failed. -/
theorem c7_nondistinguishing_failures (cfg1 : Config)
    (parse1 : String → Option (SignedToken LoginJWTClaims)) (origin1 : String)
    (now1 : Int) (db1 : Db) (req1 : Request) (e1 : HttpStatus × String)
    (cfg2 : Config) (parse2 : String → Option (SignedToken LoginJWTClaims))
    (origin2 : String) (now2 : Int) (db2 : Db) (req2 : Request)
    (e2 : HttpStatus × String)
    (h1 : Headers.from_request cfg1 parse1 origin1 now1 db1 req1 = .failure e1)
    (h2 : Headers.from_request cfg2 parse2 origin2 now2 db2 req2 = .failure e2) :
    callerFacing e1 = callerFacing e2 := by
  unfold callerFacing
  rw [headers_failure_unauthorized cfg1 parse1 origin1 now1 db1 req1 e1 h1,
      headers_failure_unauthorized cfg2 parse2 origin2 now2 db2 req2 e2 h2]

/-- C7 witness: a missing-token failure and a stale-stamp failure look the
same to the caller. -/
theorem c7_witness :
    callerFacing (HttpStatus.unauthorized, "No access token provided") =
      callerFacing (HttpStatus.unauthorized, "Invalid security stamp") :=
  c7_nondistinguishing_failures sampleCfg sampleParse "o" 100 sampleDb sampleReqNoAuth
    (HttpStatus.unauthorized, "No access token provided")
    sampleCfg sampleParse "o" 100 sampleDbStale sampleReq
    (HttpStatus.unauthorized, "Invalid security stamp")
    (by decide) (by decide)

/-- C8: organization-id resolution prefers the path segment whenever it is
UUID-shaped, falls back to the `organizationId` query value exactly when it
is UUID-shaped, and otherwise the request fails with the org-id resolution
error independently of the membership table, i.e. before any membership
lookup. -/
theorem c8_org_id_resolution (uuidOk : String → Bool) :
    (∀ (query : Option String) (p : String), uuidOk p = true →
        get_org_id uuidOk (some p) query = some p) ∧
    (∀ (path query : Option String) (q : String),
        (path = none ∨ ∃ p, path = some p ∧ uuidOk p = false) →
        query = some q → uuidOk q = true →
        get_org_id uuidOk path query = some q) ∧
    (∀ (path query : Option String),
        (path = none ∨ ∃ p, path = some p ∧ uuidOk p = false) →
        (query = none ∨ ∃ q, query = some q ∧ uuidOk q = false) →
        get_org_id uuidOk path query = none) ∧
    (∀ cfg parse origin now (db : Db) req ms1 ms2,
        get_org_id uuidOk req.pathSegment1 req.organizationIdQuery = none →
        OrgHeaders.from_request cfg uuidOk parse origin now
            { db with memberships := ms1 } req =
          OrgHeaders.from_request cfg uuidOk parse origin now
            { db with memberships := ms2 } req) ∧
    (∀ cfg parse origin now db req h,
        Headers.from_request cfg parse origin now db req = .success h →
        get_org_id uuidOk req.pathSegment1 req.organizationIdQuery = none →
        OrgHeaders.from_request cfg uuidOk parse origin now db req =
          .failure (HttpStatus.unauthorized, "Error getting the organization id")) := by
  refine ⟨?_, ?_, ?_, ?_, ?_⟩
  · intro query p hp
    unfold get_org_id
    simp [hp]
  · intro path query q hpath hq hqok
    rcases hpath with hnone | ⟨p, hsome, hbad⟩
    · subst hnone
      subst hq
      unfold get_org_id
      simp [hqok]
    · subst hsome
      subst hq
      unfold get_org_id
      simp [hbad, hqok]
  · intro path query hpath hquery
    rcases hpath with hnone | ⟨p, hsome, hbad⟩ <;>
      rcases hquery with hqnone | ⟨q, hqsome, hqbad⟩ <;>
      subst_vars <;> unfold get_org_id <;> simp [*]
  · intro cfg parse origin now db req ms1 ms2 hnone
    have e1 : Headers.from_request cfg parse origin now
        { db with memberships := ms1 } req =
        Headers.from_request cfg parse origin now db req := rfl
    have e2 : Headers.from_request cfg parse origin now
        { db with memberships := ms2 } req =
        Headers.from_request cfg parse origin now db req := rfl
    unfold OrgHeaders.from_request
    rw [e1, e2]
    cases Headers.from_request cfg parse origin now db req <;> simp [hnone]
  · intro cfg parse origin now db req h hh hnone
    unfold OrgHeaders.from_request
    rw [hh]
    simp [hnone]

/-- C8 witness: the resolution evaluated on concrete path and query values,
and the sample request (non-UUID path segment, no query value) failing with
the org-id error. -/
theorem c8_witness :
    get_org_id uuidHyphenated (some "12345678-1234-1234-1234-123456789abc")
        (some "x") = some "12345678-1234-1234-1234-123456789abc" ∧
    get_org_id uuidHyphenated (some "collections")
        (some "abcdefab-1234-1234-1234-123456789abc")
        = some "abcdefab-1234-1234-1234-123456789abc" ∧
    get_org_id uuidHyphenated (some "collections") none = none ∧
    OrgHeaders.from_request sampleCfg uuidHyphenated sampleParse "o" 100 sampleDb
        sampleReq =
      .failure (HttpStatus.unauthorized, "Error getting the organization id") :=
  ⟨(c8_org_id_resolution uuidHyphenated).1 (some "x")
      "12345678-1234-1234-1234-123456789abc" (by decide),
   (c8_org_id_resolution uuidHyphenated).2.1 (some "collections")
      (some "abcdefab-1234-1234-1234-123456789abc")
      "abcdefab-1234-1234-1234-123456789abc"
      (Or.inr ⟨"collections", rfl, by decide⟩) rfl (by decide),
   (c8_org_id_resolution uuidHyphenated).2.2.1 (some "collections") none
      (Or.inr ⟨"collections", rfl, by decide⟩) (Or.inl rfl),
   (c8_org_id_resolution uuidHyphenated).2.2.2.2 sampleCfg sampleParse "o" 100
      sampleDb sampleReq sampleHeaders (by decide) (by decide)⟩

/-- C4: evaluation of the reminder job at the claimed behaviour's failing
input.  At `now = T + 6 days` the eligible sample record (wait time seven
days, no notification yet) fires a reminder, but the persisted record still
has `last_notification_at = none` — the loop body saves the record without
ever assigning the field — and one hour later the very same record is
eligible again, so a second reminder fires well before one day has
passed. -/
theorem c4_reminder_not_persisted :
    reminder_run envComplete (chronoDays 6) [sampleEmer] ⟨[], []⟩ =
      .completed ⟨[sampleEmer], ["recovery_reminder:grantor@mail.test"]⟩ ∧
    sampleEmer.last_notification_at = none ∧
    reminderEligible (chronoDays 6 + 3600) sampleEmer = true := by
  exact ⟨rfl, rfl, by decide⟩

/-- C5: evaluation of the timeout job at the failing inputs.  With the
grantor user missing from the user table, processing the first record
panics after its transition was saved and the second record is never
processed — the run aborts instead of logging and skipping.  With a
failing mail send, the persisted transition of the first record survives
(no rollback) but the run again aborts before the second record. -/
theorem c5_run_aborts_on_record_failure :
    timed_out_run envMissingGrantor 604800 [sampleEmer, sampleEmer2] ⟨[], []⟩ =
      .panicked "Grantor user not found."
        ⟨[{ sampleEmer with status := statusCode .RecoveryApproved }], []⟩ ∧
    timed_out_run envMailFail 604800 [sampleEmer, sampleEmer2] ⟨[], []⟩ =
      .panicked "Error on sending email"
        ⟨[{ sampleEmer with status := statusCode .RecoveryApproved }], []⟩ := by
  exact ⟨rfl, rfl⟩

/-- Helper: an occurrence in a suffix is an occurrence in the whole list. -/
theorem containsBearer_append (l t : List Char) (h : containsBearer t = true) :
    containsBearer (l ++ t) = true := by
  induction l with
  | nil => simpa using h
  | cons c cs ih =>
      unfold containsBearer
      rw [List.cons_append]
      simp only [ih, Bool.or_true]

/-- Helper: with no occurrence of the pattern, the scan finds nothing. -/
theorem lastBearerTail_eq_none (s : List Char) (h : containsBearer s = false) :
    lastBearerTail s = none := by
  induction s with
  | nil => rfl
  | cons c rest ih =>
      unfold containsBearer at h
      obtain ⟨h1, h2⟩ := Bool.or_eq_false_iff.mp h
      unfold lastBearerTail
      rw [ih h2]
      simp [h1]

/-- Helper: with an occurrence present, the scan returns the suffix after
the last occurrence, and that suffix holds no further occurrence. -/
theorem lastBearerTail_spec (s : List Char) (h : containsBearer s = true) :
    ∃ pre t, s = pre ++ bearerPat ++ t ∧ containsBearer t = false ∧
      lastBearerTail s = some t := by
  induction s with
  | nil => exact absurd h (by decide)
  | cons c rest ih =>
      by_cases hr : containsBearer rest = true
      · obtain ⟨pre, t, hs, hct, hlt⟩ := ih hr
        refine ⟨c :: pre, t, ?_, hct, ?_⟩
        · rw [hs]
          simp
        · unfold lastBearerTail
          rw [hlt]
      · have hr' : containsBearer rest = false := by simpa using hr
        have hpre : bearerPat.isPrefixOf (c :: rest) = true := by
          unfold containsBearer at h
          rcases Bool.or_eq_true_iff.mp h with hp | hc
          · exact hp
          · exact absurd hc (by simp [hr'])
        obtain ⟨t, ht⟩ := List.isPrefixOf_iff_prefix.mp hpre
        have hdrop : (c :: rest).drop bearerPat.length = t := by
          rw [← ht, List.drop_left]
        have hrest : ['e', 'a', 'r', 'e', 'r', ' '] ++ t = rest := by
          have ht' := ht
          rw [show bearerPat = 'B' :: ['e', 'a', 'r', 'e', 'r', ' '] from rfl] at ht'
          rw [List.cons_append] at ht'
          exact (List.cons.injEq _ _ _ _ ▸ ht').2
        have hct : containsBearer t = false := by
          by_contra hcc
          have hcc' : containsBearer t = true := by simpa using hcc
          have h3 := containsBearer_append ['e', 'a', 'r', 'e', 'r', ' '] t hcc'
          rw [hrest] at h3
          exact absurd h3 (by simp [hr'])
        refine ⟨[], t, by simpa using ht.symm, hct, ?_⟩
        unfold lastBearerTail
        rw [lastBearerTail_eq_none rest hr']
        simp [hpre, hdrop]

/-- C10: bearer-token extraction takes the substring after the last
occurrence of the pattern; a header without the pattern is used whole as
the token; the missing-token error arises only for an absent header, the
inner `None` arm being dead. -/
theorem c10_bearer_extraction (a : String) :
    (containsBearer a.data = false → getAccessToken (some a) = .ok a) ∧
    (containsBearer a.data = true →
        ∃ pre t, a.data = pre ++ bearerPat ++ t ∧ containsBearer t = false ∧
          getAccessToken (some a) = .ok (String.mk t)) ∧
    getAccessToken none = .error "No access token provided" ∧
    (∀ (b : String), ∃ tok, getAccessToken (some b) = .ok tok) := by
  refine ⟨?_, ?_, rfl, ?_⟩
  · intro h
    have hn := lastBearerTail_eq_none a.data h
    simp only [getAccessToken, rsplitBearerNext, hn]
  · intro h
    obtain ⟨pre, t, hs, hct, hlt⟩ := lastBearerTail_spec a.data h
    refine ⟨pre, t, hs, hct, ?_⟩
    simp only [getAccessToken, rsplitBearerNext, hlt]
  · intro b
    cases hb : lastBearerTail b.data with
    | some t => exact ⟨String.mk t, by simp [getAccessToken, rsplitBearerNext, hb]⟩
    | none => exact ⟨b, by simp [getAccessToken, rsplitBearerNext, hb]⟩

/-- C10 witness: a pattern-free header used whole, a two-occurrence header
reduced to the text after the last occurrence, and the absent-header
error. -/
theorem c10_witness :
    getAccessToken (some "tok noBear") = .ok "tok noBear" ∧
    (∃ pre t, "xBearer aBearer b".data = pre ++ bearerPat ++ t ∧
        containsBearer t = false ∧
        getAccessToken (some "xBearer aBearer b") = .ok (String.mk t)) ∧
    getAccessToken none = .error "No access token provided" :=
  ⟨(c10_bearer_extraction "tok noBear").1 (by decide),
   (c10_bearer_extraction "xBearer aBearer b").2.1 (by decide),
   (c10_bearer_extraction "tok noBear").2.2.1⟩
